import Mathlib

/-!
Shallow embedding of the Drawi game-agent core (src/drawi), covering:
  * utils.extract_solana_addresses (Entry Validator),
  * game_agent.select_winner_llm (Winner Selector),
  * game_agent.run_close_game_agent_task (closeGame sweep),
  * game_agent.run_create_game_agent_task (openGame),
  * game_store.GameStore (create_game / update_game / list_open_games).

External collaborators (Twitter client, LLM judge, wall clock, randomness,
Python set-iteration order) are modelled as explicit parameters; the store is a
list of records; timestamps are natural numbers counting seconds.
-/

namespace Drawi

/-! ## Entry Validator: utils.extract_solana_addresses -/

/-- The base58 character class of the regex `[1-9A-HJ-NP-Za-km-z]`
(utils.py line 63), tested on ASCII code points. -/
def isBase58Char (c : Char) : Bool :=
  let n := c.toNat
  decide (49 ≤ n ∧ n ≤ 57)      -- '1'..'9'
  || decide (65 ≤ n ∧ n ≤ 72)   -- 'A'..'H'
  || decide (74 ≤ n ∧ n ≤ 78)   -- 'J'..'N'
  || decide (80 ≤ n ∧ n ≤ 90)   -- 'P'..'Z'
  || decide (97 ≤ n ∧ n ≤ 107)  -- 'a'..'k'
  || decide (109 ≤ n ∧ n ≤ 122) -- 'm'..'z'

/-- The base58 alphabet used by `base58.b58decode`. -/
def b58Alphabet : List Char :=
  "123456789ABCDEFGHJKLMNPQRSTUVWXYZabcdefghijkmnopqrstuvwxyz".toList

/-- Digit value of a base58 character: its index in the alphabet. -/
def b58Digit (c : Char) : Nat := b58Alphabet.indexOf c

/-- The big-endian integer value of a base58 string, as accumulated by
`base58.b58decode_int`. -/
def b58Value (l : List Char) : Nat :=
  l.foldl (fun acc c => acc * 58 + b58Digit c) 0

/-- Number of bytes in the minimal big-endian representation of `n`
(0 bytes for 0).  Structural recursion on a fuel argument so that the
kernel can evaluate it; `fuel = n` always suffices since `n / 256 < n`
for `n ≠ 0` and the recursion depth is at most `log₂₅₆ n + 1 ≤ n`. -/
def byteLenAux : Nat → Nat → Nat
  | 0, _ => 0
  | fuel + 1, n => if n = 0 then 0 else byteLenAux fuel (n / 256) + 1

/-- Number of bytes of the minimal big-endian representation of `n`. -/
def byteLen (n : Nat) : Nat := byteLenAux n n

/-- Length in bytes of `base58.b58decode l`: one zero byte per leading `'1'`
character plus the bytes of the integer value of the remainder. -/
def b58DecodedLen (l : List Char) : Nat :=
  (l.takeWhile (· == '1')).length + byteLen (b58Value (l.dropWhile (· == '1')))

/-- The regex word class `\w` of Python's `re` module, restricted to ASCII
(alphanumerics and underscore).  Every base58 character is a word character,
so this restriction does not affect which base58 runs are matched. -/
def isWordChar (c : Char) : Bool := c.isAlphanum || c == '_'

/-- Maximal runs of word characters of a character list, fuelled by the list
length so the kernel can evaluate it (the fuel is consumed at least as fast
as the list shrinks). -/
def wordRunsAux : Nat → List Char → List (List Char)
  | 0, _ => []
  | _ + 1, [] => []
  | fuel + 1, c :: rest =>
    if isWordChar c then
      (c :: rest.takeWhile isWordChar) :: wordRunsAux fuel (rest.dropWhile isWordChar)
    else
      wordRunsAux fuel rest

/-- The maximal runs of word characters of a character list. -/
def wordRuns (l : List Char) : List (List Char) := wordRunsAux l.length l

/-- Embedding of `re.findall(r"\b[1-9A-HJ-NP-Za-km-z]{32,44}\b", text)`
(utils.py lines 63-64).  Because every base58 character is a word character,
a match of this pattern is exactly a maximal word-character run that consists
entirely of base58 characters and has length between 32 and 44: the `\b`
anchors force the match to cover a whole run, and a longer or shorter run, or
one containing a non-base58 word character, admits no word boundary. -/
def findCandidates (l : List Char) : List (List Char) :=
  (wordRuns l).filter fun r =>
    r.all isBase58Char && decide (32 ≤ r.length) && decide (r.length ≤ 44)

/-- Embedding of `utils.extract_solana_addresses` (utils.py lines 53-73):
keep the regex candidates whose base58 decoding is exactly 32 bytes and
collect them into a set (`Finset` models the deduplicating Python `set`). -/
def extract_solana_addresses (text : String) : Finset String :=
  (((findCandidates text.toList).filter fun r => b58DecodedLen r == 32).map
    fun r => String.mk r).toFinset

/-- The first valid address occurring in the text, in left-to-right scan
order of `re.findall` (used to state what "first valid address" means). -/
def firstValidAddress (text : String) : Option String :=
  (((findCandidates text.toList).filter fun r => b58DecodedLen r == 32).map
    fun r => String.mk r).head?

lemma wordRunsAux_infix :
    ∀ (fuel : Nat) (l r : List Char), r ∈ wordRunsAux fuel l → r <:+: l := by
  intro fuel
  induction fuel with
  | zero => intro l r h; simp [wordRunsAux] at h
  | succ n ih =>
    intro l r h
    cases l with
    | nil => simp [wordRunsAux] at h
    | cons c rest =>
      rw [wordRunsAux] at h
      by_cases hc : isWordChar c
      · rw [if_pos hc] at h
        rcases List.mem_cons.mp h with h1 | h2
        · subst h1
          have htw : rest.takeWhile isWordChar <+: rest :=
            List.takeWhile_prefix isWordChar
          obtain ⟨t, ht⟩ := htw
          exact ⟨[], t, by simp [ht]⟩
        · have hd : rest.dropWhile isWordChar <:+: c :: rest :=
            ((rest.dropWhile_suffix isWordChar).trans (List.suffix_cons c rest)).isInfix
          exact (ih _ r h2).trans hd
      · rw [if_neg hc] at h
        exact (ih rest r h).trans ⟨[c], [], by simp⟩

lemma mem_extract (s a : String) (ha : a ∈ extract_solana_addresses s) :
    ∃ r, r ∈ wordRuns s.toList ∧ r.all isBase58Char ∧ 32 ≤ r.length ∧
      r.length ≤ 44 ∧ b58DecodedLen r = 32 ∧ a = String.mk r := by
  unfold extract_solana_addresses at ha
  rw [List.mem_toFinset] at ha
  obtain ⟨r, hr, hmk⟩ := List.mem_map.mp ha
  obtain ⟨hr1, hr2⟩ := List.mem_filter.mp hr
  obtain ⟨hr3, hr4⟩ := List.mem_filter.mp hr1
  refine ⟨r, hr3, ?_, ?_, ?_, ?_, hmk.symm⟩
  · exact (Bool.and_eq_true _ _).mp ((Bool.and_eq_true _ _).mp hr4).1 |>.1
  · exact of_decide_eq_true ((Bool.and_eq_true _ _).mp ((Bool.and_eq_true _ _).mp hr4).1).2
  · exact of_decide_eq_true ((Bool.and_eq_true _ _).mp hr4).2
  · exact beq_iff_eq.mp hr2

/-- C9: every extracted address is a substring of the input, drawn from the
base58 alphabet, of length between 32 and 44, whose base58 decoding is
exactly 32 bytes; the result is a set, hence deduplicated. -/
theorem C9_extract_addresses_sound (s a : String)
    (ha : a ∈ extract_solana_addresses s) :
    a.toList <:+: s.toList ∧ (∀ c ∈ a.toList, isBase58Char c) ∧
      32 ≤ a.length ∧ a.length ≤ 44 ∧ b58DecodedLen a.toList = 32 := by
  obtain ⟨r, hrun, hall, h32, h44, hdec, hmk⟩ := mem_extract s a ha
  have htl : a.toList = r := by rw [hmk]; rfl
  have hlen : a.length = r.length := by rw [hmk]; rfl
  refine ⟨?_, ?_, ?_, ?_, ?_⟩
  · rw [htl]; exact wordRunsAux_infix _ _ r hrun
  · rw [htl]; exact fun c hc => List.all_eq_true.mp hall c hc
  · rw [hlen]; exact h32
  · rw [hlen]; exact h44
  · rw [htl]; exact hdec

/-- Witness for C9 at a concrete input: the system-program address
(32 `'1'` characters, decoding to 32 zero bytes) inside free text. -/
theorem C9_extract_addresses_sound_witness :
    "11111111111111111111111111111111" ∈
      extract_solana_addresses "wallet: 11111111111111111111111111111111 ty" ∧
    (("11111111111111111111111111111111" : String).toList <:+:
        ("wallet: 11111111111111111111111111111111 ty" : String).toList ∧
      (∀ c ∈ ("11111111111111111111111111111111" : String).toList, isBase58Char c) ∧
      32 ≤ ("11111111111111111111111111111111" : String).length ∧
      ("11111111111111111111111111111111" : String).length ≤ 44 ∧
      b58DecodedLen ("11111111111111111111111111111111" : String).toList = 32) :=
  ⟨by decide, C9_extract_addresses_sound _ _ (by decide)⟩

/-! ## Python string helpers

Core `String.trim` / `String.replace` / `String.capitalize` use well-founded
recursion on byte positions, which the kernel cannot evaluate; the Python
string methods used by the agent are therefore modelled structurally over
the character list. -/

/-- Python `str.strip()`: remove leading and trailing whitespace. -/
def pyStrip (s : String) : String :=
  String.mk
    (((s.toList.dropWhile Char.isWhitespace).reverse.dropWhile
      Char.isWhitespace).reverse)

/-- Python `str.capitalize()`: uppercase the first character, lowercase the
rest. -/
def pyCapitalize (s : String) : String :=
  match s.toList with
  | [] => ""
  | c :: rest => String.mk (c.toUpper :: rest.map Char.toLower)

/-- Replace every occurrence of `pat` (non-empty) in `l` by `rep`, scanning
left to right; fuelled by the length of `l`. -/
def replaceAllAux : Nat → List Char → List Char → List Char → List Char
  | 0, l, _, _ => l
  | fuel + 1, l, pat, rep =>
    match l with
    | [] => []
    | c :: rest =>
      if pat ≠ [] ∧ pat.isPrefixOf l then
        rep ++ replaceAllAux fuel (l.drop pat.length) pat rep
      else
        c :: replaceAllAux fuel rest pat rep

/-- Python `str.replace(pat, rep)` for a non-empty pattern. -/
def pyReplace (s pat rep : String) : String :=
  String.mk (replaceAllAux s.toList.length s.toList pat.toList rep.toList)

/-! ## Collaborator data: replies, posts, authors -/

/-- Author metadata attached to a reply by `tools.find_answers_with_conversation_id`
(tools.py lines 363-368); the empty author models the empty dict `{}` used as
default by `reply.get("author", {})`.  Field values are modelled as plain
strings/bool (absent metadata as the defaults). -/
structure Author where
  username : String := ""
  name : String := ""
  profile_image_url : String := ""
  verified : Bool := false
deriving DecidableEq, Repr

/-- A reply dict as produced by `find_answers_with_conversation_id`: either an
error marker `[{"error": msg}]` or tweet data with `text`, `id` and optional
`author`.  `none` models an absent key (`dict.get` returns `None`). -/
structure Reply where
  error : Option String := none
  text : Option String := none
  id : Option String := none
  author : Option Author := none
deriving DecidableEq, Repr

/-- Result dict of `post_tweet` / `reply_to_tweet` (tools.py): either
`{"error": msg}` or `{"id": ..., ...}`.  `error.isSome` models the key test
`"error" in result`; `id` models `result.get("id")`. -/
structure PostResult where
  error : Option String := none
  id : Option String := none
deriving DecidableEq, Repr

/-- Python truthiness of `d.get("error")`: the key is present and the value a
non-empty string. -/
def errTruthy : Option String → Bool
  | none => false
  | some s => s != ""

/-! ## Entry dicts

A validated entry is the dict built at game_agent.py lines 247-252 with
exactly the keys `"wallet"`, `"text"`, `"reply_id"` and `"author"`.  It is
modelled as an association list so that reads of other keys (notably
`winning_entry.get("author_id", "")` at line 305) behave like Python
`dict.get` on an absent key. -/

/-- A dict value occurring in an entry dict. -/
inductive DVal where
  | vs (s : String)
  | vos (s : Option String)
  | va (a : Author)
deriving DecidableEq, Repr

/-- An entry dict: association list from keys to values; lookups take the
first binding, as in a Python dict with distinct keys. -/
abbrev EntryDict := List (String × DVal)

/-- The entry dict built at game_agent.py lines 247-252:
`{"wallet": ..., "text": ..., "reply_id": reply.get("id"),
"author": reply.get("author", {})}`. -/
def mkEntry (wallet text : String) (reply_id : Option String) (author : Author) :
    EntryDict :=
  [("wallet", .vs wallet), ("text", .vs text), ("reply_id", .vos reply_id),
   ("author", .va author)]

/-- `entry["wallet"]` on an entry dict (always a string bound by `mkEntry`;
the catch-all arm is unreachable on entries built by `mkEntry`). -/
def entryWallet (e : EntryDict) : String :=
  match e.lookup "wallet" with
  | some (.vs s) => s
  | _ => ""

/-- `entry["reply_id"]` on an entry dict (bound to `reply.get("id")`, which
may be `None`; the catch-all arm is unreachable on entries built by
`mkEntry`). -/
def entryReplyId (e : EntryDict) : Option String :=
  match e.lookup "reply_id" with
  | some (.vos s) => s
  | _ => none

/-- `winning_entry.get(key, default)` where `winning_entry` is either a
matched entry dict or the empty dict `{}` (modelled by `none`) and the call
site expects a string.  The two call sites read `"text"` (always bound to a
string by `mkEntry`) and `"author_id"` (never bound, so the default is
returned); the `some _` catch-all is unreachable at those call sites. -/
def wGetStrD (w : Option EntryDict) (key dflt : String) : String :=
  match w with
  | none => dflt
  | some e =>
    match e.lookup key with
    | some (.vs s) => s
    | some _ => dflt
    | none => dflt

/-- `winning_entry.get("author", {})` (game_agent.py line 291): the matched
entry's author dict, or the empty dict when no entry matched. -/
def wGetAuthor (w : Option EntryDict) : Author :=
  match w with
  | none => {}
  | some e =>
    match e.lookup "author" with
    | some (.va a) => a
    | _ => {}

/-! ## Winner Selector: game_agent.select_winner_llm -/

/-- `WinnerResult` Pydantic model (game_agent.py lines 124-126). -/
structure WinnerResult where
  wallet : String
  reply_id : String
deriving DecidableEq, Repr

/-- `WinnerResponse` Pydantic model (game_agent.py lines 128-130). -/
structure WinnerResponse where
  result : WinnerResult
  chain_of_thought : String
deriving DecidableEq, Repr

/-- Possible values returned by `select_winner_llm`: the parsed
`WinnerResponse` object, or the fallback dict
`{"result": entries[0], "chain_of_thought": ...}` of the `except` branch
(game_agent.py lines 183-186), which has a different shape (its `result` is a
raw entry dict, not a `WinnerResult`). -/
inductive SelectOutcome where
  | parsed (r : WinnerResponse)
  | fallback (entry : EntryDict) (chain_of_thought : String)
deriving DecidableEq, Repr

/-- `try: return response except: return handler()` where the body is a plain
`return` of an already-computed value: the body cannot raise, so the handler
is never run. -/
def tryReturn (v : SelectOutcome) (_handler : Unit → SelectOutcome) : SelectOutcome := v

/-- Embedding of `select_winner_llm` (game_agent.py lines 133-186).  `judge`
models `structured_model.ainvoke(prompt)`: `.ok r` when the LLM output parses
into a `WinnerResponse`, `.error e` when parsing fails and the call raises.
The raise happens at line 178, *before* the `try` block, so it propagates to
the caller; the `try` at lines 179-186 guards only `return response`, which
cannot raise, so its `except` fallback (first entry of `entries`) is dead
code. -/
def select_winner_llm (judge : Except String WinnerResponse)
    (entries : List EntryDict) : Except String SelectOutcome :=
  match judge with
  | .error e => .error e
  | .ok response =>
    .ok (tryReturn (.parsed response) fun _ =>
      .fallback (entries.headD [])
        "Fallback: selected the first valid entry due to error parsing LLM output.")

/-! ## Game Store: game_store.GameStore -/

/-- A persisted game document (game_store.py lines 17-29 plus the fields
added by the two `update_game` call sites).  `none` models an absent or
`None`-valued field; `status` is the literal Python string. -/
structure GameRecord where
  game_id : String
  tweet_id : String
  game_type : String
  title : String
  status : String
  created_at : Nat
  close_at : Option Nat
  winner_tweet_id : Option String := none
  winner_wallet : Option String := none
  chain_of_thought : Option String := none
  winning_tweet_text : Option String := none
  winner_username : Option String := none
  winner_name : Option String := none
  winner_image_url : Option String := none
  winner_author_id : Option String := none
  winner_is_verified : Option Bool := none
  updated_at : Option Nat := none
deriving DecidableEq, Repr

/-- The two update dicts ever passed to `GameStore.update_game`:
the no-winner dict of `close_game_no_winner` (game_agent.py lines 192-198)
and the winner dict of the winner branch (lines 296-307).  Both contain
`"status": "closed"`. -/
inductive GameUpdate where
  | noWinner (winner_tweet_id : String)
  | withWinner (winner_tweet_id : Option String)
      (winner_wallet chain_of_thought winning_tweet_text winner_username
        winner_name winner_image_url winner_author_id : String)
      (winner_is_verified : Bool)
deriving DecidableEq, Repr

/-- The `winner_author_id` entry of an update dict (only the winner-branch
dict has the key). -/
def updateAuthorId : GameUpdate → Option String
  | .noWinner _ => none
  | .withWinner _ _ _ _ _ _ _ aid _ => some aid

/-- `$set` of an update dict on one document, with `updated_at` stamped by
`GameStore.update_game` (game_store.py lines 32-36). -/
def applyUpdate (g : GameRecord) (u : GameUpdate) (now : Nat) : GameRecord :=
  match u with
  | .noWinner wtid =>
    { g with
      status := "closed"
      winner_tweet_id := some wtid
      winner_wallet := some ""
      chain_of_thought := some ""
      winning_tweet_text := some ""
      updated_at := some now }
  | .withWinner wtid wallet cot wtext uname wname img aid ver =>
    { g with
      status := "closed"
      winner_tweet_id := wtid
      winner_wallet := some wallet
      chain_of_thought := some cot
      winning_tweet_text := some wtext
      winner_username := some uname
      winner_name := some wname
      winner_image_url := some img
      winner_author_id := some aid
      winner_is_verified := some ver
      updated_at := some now }

/-- `GameStore.update_game`: `update_one({"game_id": id}, {"$set": fields})`
updates the first document whose `game_id` matches. -/
def update_game (store : List GameRecord) (game_id : String) (u : GameUpdate)
    (now : Nat) : List GameRecord :=
  match store with
  | [] => []
  | g :: rest =>
    if g.game_id = game_id then applyUpdate g u now :: rest
    else g :: update_game rest game_id u now

/-- The new game document of `GameStore.create_game` (game_store.py lines
18-28), with the default argument `status = "open"` (no call site overrides
it). -/
def newGameRecord (game_id tweet_id game_type : String) (close_at now : Nat) :
    GameRecord :=
  { game_id := game_id
    tweet_id := tweet_id
    game_type := game_type
    title := "Game " ++ pyCapitalize game_type
    status := "open"
    created_at := now
    close_at := some close_at
    winner_tweet_id := none
    winner_wallet := none }

/-- `GameStore.create_game` (game_store.py lines 17-29): insert one new
document with `status = "open"` and empty winner fields. -/
def create_game (store : List GameRecord) (game_id tweet_id game_type : String)
    (close_at : Nat) (now : Nat) : List GameRecord :=
  store ++ [newGameRecord game_id tweet_id game_type close_at now]

/-- `GameStore.list_open_games` (game_store.py lines 38-39). -/
def list_open_games (store : List GameRecord) : List GameRecord :=
  store.filter fun g => g.status == "open"

/-! ## closeGame: game_agent.run_close_game_agent_task -/

/-- `needle in hay` Python substring test. -/
def strContains (needle hay : String) : Bool :=
  decide (needle.toList <:+: hay.toList)

/-- The announcement texts of game_agent.py (lines 230-234, 257-261,
270-274, 276-281). -/
def noRepliesAnnouncement : String :=
  "🎮 GAME CLOSED 🎮\n\n⚠️ NO REPLIES RECEIVED.\n😢 NO WINNER DECLARED."

def noValidWalletAnnouncement : String :=
  "🎮 GAME CLOSED 🎮\n\n⚠️ NO VALID WALLET FOUND.\n🙁 PLEASE INCLUDE YOUR SOLANA WALLET ADDRESS NEXT TIME."

def noImpressiveAnnouncement : String :=
  "🎮 GAME CLOSED 🎮\n\n😞 NO IMPRESSIVE SUBMISSION RECEIVED.\n🙁 NO WINNER DECLARED, BETTER LUCK NEXT TIME!"

def winnerAnnouncement (wallet : String) : String :=
  "🎮 GAME CLOSED 🎮\n\n🏆 WINNER ANNOUNCED:\n👉 Wallet: " ++ wallet ++ "\n\n🎉 CONGRATULATIONS!"

/-- The log line of the fetch-error branch (game_agent.py lines 220-224):
a rate-limit error (`"429" in error_message`) is logged with a different
message, but the branch is otherwise identical. -/
def fetchErrorLog (game : GameRecord) (e : String) : String :=
  if strContains "429" e then
    "Rate limit reached for game " ++ game.game_id ++ ": " ++ e
  else
    "Error fetching replies for game " ++ game.game_id ++ ": " ++ e

/-- The log line of the announcement-posting error branch
(game_agent.py line 285). -/
def postErrorLog (game : GameRecord) (e : String) : String :=
  "Error posting announcement for game_id " ++ game.game_id ++ ": " ++ e

/-- The error test of game_agent.py line 219:
`replies and isinstance(replies, list) and replies[0].get("error")`
(the fetch always returns a list, so the `isinstance` test is vacuous).
Returns the error message when the branch is taken. -/
def fetchError : List Reply → Option String
  | [] => none
  | r :: _ =>
    match r.error with
    | some e => if e = "" then none else some e
    | none => none

/-- The external collaborators of one close sweep, as functions of the game
record being processed: `fetch` models `find_answers_with_conversation_id`,
`judge` models `structured_model.ainvoke` inside `select_winner_llm`
(`.error` = unparseable output, which raises), `post` models
`reply_to_tweet(tweet_id, text)`, and `choice` models `next(iter(s))` on a
Python set — an element of the set chosen by the set's (unspecified,
hash-dependent) iteration order. -/
structure CloseEnv where
  fetch : GameRecord → List Reply
  judge : GameRecord → List EntryDict → Except String WinnerResponse
  post : GameRecord → String → PostResult
  choice : Finset String → String

/-- A choice function that a Python `next(iter(s))` call could realize:
on every non-empty set it returns one of the set's elements.  No ordering
constraint is imposed, because CPython set iteration order is hash-dependent
and not the insertion order. -/
def ChoiceAdmissible (f : Finset String → String) : Prop :=
  ∀ s : Finset String, s.Nonempty → f s ∈ s

/-- The validated entry list of game_agent.py lines 240-252: a reply
contributes an entry exactly when `extract_solana_addresses` of its text is a
non-empty set, and the entry's wallet is `next(iter(addresses))`, i.e. the
element delivered first by the set's iteration order (`choice`). -/
def validEntries (choice : Finset String → String) (replies : List Reply) :
    List EntryDict :=
  replies.filterMap fun r =>
    let content := r.text.getD ""
    let addresses := extract_solana_addresses content
    if addresses.Nonempty then
      some (mkEntry (choice addresses) content r.id (r.author.getD {}))
    else
      none

/-- What one visit of the per-game loop body does besides reading: the
update written to the store (if any), the announcement texts posted via
`reply_to_tweet`, and the log lines emitted. -/
structure CloseGameResult where
  update : Option GameUpdate := none
  posted : List String := []
  logs : List String := []
deriving DecidableEq, Repr

/-- The closure guard of game_agent.py line 211:
`if not close_at or datetime.now() < close_at: continue`. -/
def closeDue (game : GameRecord) (now : Nat) : Bool :=
  match game.close_at with
  | none => false
  | some t => decide (t ≤ now)

/-- The no-replies and no-valid-entries branches (game_agent.py lines
228-237 and 255-264): post the announcement and close via
`close_game_no_winner` unconditionally — even when the announcement post
failed, in which case `post.get("id", "")` stores the empty string. -/
def closeNoWinnerBranch (env : CloseEnv) (game : GameRecord) (ann : String) :
    CloseGameResult :=
  let post := env.post game ann
  { update := some (.noWinner (post.id.getD "")), posted := [ann] }

/-- The announcement chosen at game_agent.py lines 269-281: the no-winner
text when the verdict's wallet is blank after `.strip()`, the winner text
otherwise. -/
def closeAnnouncementOf (winner : WinnerResponse) : String :=
  if pyStrip winner.result.wallet = "" then noImpressiveAnnouncement
  else winnerAnnouncement winner.result.wallet

/-- The entry matched back from the verdict at game_agent.py line 288:
`next((entry for entry in valid_entries if entry["reply_id"] ==
winner.result.reply_id), {})` (`none` models the `{}` default). -/
def matchedEntry (valid_entries : List EntryDict) (winner : WinnerResponse) :
    Option EntryDict :=
  valid_entries.find? fun e => entryReplyId e == some winner.result.reply_id

/-- The winner branch (game_agent.py lines 266-308): run the Winner
Selector, post the corresponding announcement, and update the record only
when the announcement post did not report an error.  A `.error` result
models the exception propagating out of `select_winner_llm` (the
`.fallback` arm is unreachable: `select_winner_llm` never returns it). -/
def closeWinnerBranch (env : CloseEnv) (game : GameRecord)
    (valid_entries : List EntryDict) : Except String CloseGameResult :=
  match select_winner_llm (env.judge game valid_entries) valid_entries with
  | .error e => .error e
  | .ok (.fallback _ _) => .error "AttributeError: result"
  | .ok (.parsed winner) =>
    match (env.post game (closeAnnouncementOf winner)).error with
    | some e =>
      .ok { posted := [closeAnnouncementOf winner], logs := [postErrorLog game e] }
    | none =>
      .ok { update := some (.withWinner
              (env.post game (closeAnnouncementOf winner)).id
              winner.result.wallet winner.chain_of_thought
              (wGetStrD (matchedEntry valid_entries winner) "text" "")
              (wGetAuthor (matchedEntry valid_entries winner)).username
              (wGetAuthor (matchedEntry valid_entries winner)).name
              (wGetAuthor (matchedEntry valid_entries winner)).profile_image_url
              (wGetStrD (matchedEntry valid_entries winner) "author_id" "")
              (wGetAuthor (matchedEntry valid_entries winner)).verified)
            posted := [closeAnnouncementOf winner] }

/-- One iteration of the loop of `run_close_game_agent_task`
(game_agent.py lines 209-308) on the game record `game`.  The Python code
fetches the replies once and reuses the local variable; here `env.fetch` is
a pure function of the record, so repeating the call denotes the same
list. -/
def close_game_step (env : CloseEnv) (now : Nat) (game : GameRecord) :
    Except String CloseGameResult :=
  if closeDue game now = false then .ok {}
  else
    match fetchError (env.fetch game) with
    | some e => .ok { logs := [fetchErrorLog game e] }
    | none =>
      if (env.fetch game).isEmpty then
        .ok (closeNoWinnerBranch env game noRepliesAnnouncement)
      else if (validEntries env.choice (env.fetch game)).isEmpty then
        .ok (closeNoWinnerBranch env game noValidWalletAnnouncement)
      else
        closeWinnerBranch env game (validEntries env.choice (env.fetch game))

/-- Apply the update requested by one loop iteration, if any, to the store. -/
def applyStep (store : List GameRecord) (gid : String) (now : Nat) :
    Option GameUpdate → List GameRecord
  | some u => update_game store gid u now
  | none => store

/-- The loop of `run_close_game_agent_task` over the snapshot of open games,
threading the store through the `update_game` calls.  An uncaught exception
(the Winner Selector's parse failure) aborts the rest of the loop; updates
already written stay written. -/
def sweepGames (env : CloseEnv) (now : Nat) :
    List GameRecord → List GameRecord → List GameRecord × Option String
  | store, [] => (store, none)
  | store, g :: gs =>
    match close_game_step env now g with
    | .error e => (store, some e)
    | .ok res => sweepGames env now (applyStep store g.game_id now res.update) gs

/-- Embedding of `run_close_game_agent_task` (game_agent.py lines 200-308):
sweep the games returned by `list_open_games` and return the final store
together with the propagated exception, if any. -/
def run_close_game_agent_task (env : CloseEnv) (now : Nat)
    (store : List GameRecord) : List GameRecord × Option String :=
  sweepGames env now store (list_open_games store)

/-! ## openGame: game_agent.run_create_game_agent_task -/

/-- The fixed candidate minute offsets of game_agent.py line 337. -/
def possible_durations : List Nat := [30, 60, 90, 120, 150, 180]

/-- `tweet_text.format(result_time=v)`: the game bodies built by
`choose_game` contain the single placeholder `\x7bresult_time\x7d`. -/
def formatResultTime (text v : String) : String :=
  pyReplace text "\x7bresult_time\x7d" v

/-- Result of one `run_create_game_agent_task` invocation: the store after
the call and the value of the local `tweet_text` after the `.format` call
(`none` when the transition aborted before formatting). -/
structure CreateGameResult where
  store : List GameRecord
  renderedText : Option String
deriving DecidableEq, Repr

/-- Embedding of `run_create_game_agent_task` (game_agent.py lines 310-346).
`post` models `post_tweet` of the chosen announcement body; `gameDuration`
models `os.getenv("GAME_DURATION")` after the non-blank check and `int()`
parse (in seconds); `k` models `random.choice(possible_durations)` as an
index; `game_id` models `str(uuid.uuid4())`; `now` is the wall clock.
Aborts (store unchanged) when the post reports an error or its id is absent
or falsy (`if not tweet_id`). -/
def run_create_game_agent_task (store : List GameRecord)
    (game_type tweet_text : String) (post : PostResult)
    (gameDuration : Option Nat) (k : Fin 6) (now : Nat) (game_id : String) :
    CreateGameResult :=
  if post.error.isSome then { store := store, renderedText := none }
  else
    match post.id with
    | none => { store := store, renderedText := none }
    | some tweet_id =>
      if tweet_id = "" then { store := store, renderedText := none }
      else
        match gameDuration with
        | some d =>
          { store := create_game store game_id tweet_id game_type (now + d) now
            renderedText := some (formatResultTime tweet_text
              ("In " ++ toString (d / 60) ++ " minutes.")) }
        | none =>
          let m := possible_durations.get ⟨k.val, by simp [possible_durations]⟩
          { store := create_game store game_id tweet_id game_type (now + 60 * m) now
            renderedText := some (formatResultTime tweet_text
              ("In " ++ toString m ++ " minutes.")) }

/-! ## Concrete fixtures -/

/-- The Solana system-program address: 32 `'1'` characters, decoding to 32
zero bytes. -/
def addrA : String := "11111111111111111111111111111111"

/-- A second valid address: 31 `'1'` characters followed by `'2'`, decoding
to 31 zero bytes and one `0x01` byte. -/
def addrB : String := "11111111111111111111111111111112"

/-- A concrete open game record due for closure at time 5. -/
def gameA : GameRecord :=
  { game_id := "g1"
    tweet_id := "t1"
    game_type := "fun_fact"
    title := "Game Fun_fact"
    status := "open"
    created_at := 0
    close_at := some 5 }

/-- A reply whose text contains the single valid address `addrA`. -/
def replyA : Reply :=
  { text := some ("my wallet " ++ addrA), id := some "r1" }

/-- A set-iteration choice that prefers `d` when present and otherwise
returns the minimum of the set: admissible for every non-empty set. -/
def pickMem (d : String) (s : Finset String) : String :=
  if d ∈ s then d else if h : s.Nonempty then s.min' h else ""

lemma pickMem_admissible (d : String) : ChoiceAdmissible (pickMem d) := by
  intro s hs
  unfold pickMem
  by_cases hd : d ∈ s
  · rw [if_pos hd]; exact hd
  · rw [if_neg hd, dif_pos hs]; exact s.min'_mem hs

/-! ## C3: fetch errors skip the game -/

/-- C3: when the reply fetch reports an error (rate-limited or not), the
sweep only logs and skips the game: no update is written, no announcement is
posted, the record stays as it was, and the error message influences nothing
but the log line. -/
theorem C3_fetch_error_skips_game (env : CloseEnv) (now : Nat)
    (g : GameRecord) (e : String) (hdue : closeDue g now = true)
    (herr : fetchError (env.fetch g) = some e) :
    close_game_step env now g =
      .ok { update := none, posted := [], logs := [fetchErrorLog g e] } ∧
    run_close_game_agent_task env now [g] = ([g], none) := by
  have hstep : close_game_step env now g =
      .ok { update := none, posted := [], logs := [fetchErrorLog g e] } := by
    simp [close_game_step, hdue, herr]
  refine ⟨hstep, ?_⟩
  by_cases hopen : g.status == "open"
  · simp [run_close_game_agent_task, list_open_games, hopen, sweepGames, hstep,
      applyStep]
  · simp [run_close_game_agent_task, list_open_games, hopen, sweepGames]

/-- A concrete environment whose fetch reports a rate-limit error. -/
def envC3 : CloseEnv :=
  { fetch := fun _ => [{ error := some "429 Too Many Requests" }]
    judge := fun _ _ => .error "unused"
    post := fun _ _ => {}
    choice := pickMem addrA }

/-- Witness for C3: a due open game whose fetch reports a 429 error is
skipped and the singleton store is unchanged. -/
theorem C3_fetch_error_skips_game_witness :
    closeDue gameA 10 = true ∧
    fetchError (envC3.fetch gameA) = some "429 Too Many Requests" ∧
    (close_game_step envC3 10 gameA =
        .ok { update := none, posted := [],
              logs := [fetchErrorLog gameA "429 Too Many Requests"] } ∧
      run_close_game_agent_task envC3 10 [gameA] = ([gameA], none)) :=
  ⟨rfl, rfl, C3_fetch_error_skips_game envC3 10 gameA _ rfl rfl⟩

/-! ## C4: closed games are never touched again -/

lemma update_game_get?_of_ne :
    ∀ (store : List GameRecord) (gid : String) (u : GameUpdate) (now i : Nat)
      (g : GameRecord), store.get? i = some g → g.game_id ≠ gid →
      (update_game store gid u now).get? i = some g := by
  intro store
  induction store with
  | nil => intro gid u now i g h _; simp at h
  | cons a rest ih =>
    intro gid u now i g h hne
    cases i with
    | zero =>
      simp only [List.get?] at h
      injection h with h
      subst h
      rw [update_game, if_neg hne]
      rfl
    | succ n =>
      simp only [List.get?] at h
      rw [update_game]
      by_cases ha : a.game_id = gid
      · rw [if_pos ha]; exact h
      · rw [if_neg ha]; exact ih gid u now n g h hne

lemma sweepGames_get?_preserved (env : CloseEnv) (now : Nat) :
    ∀ (gs store : List GameRecord) (i : Nat) (g : GameRecord),
      store.get? i = some g → (∀ g' ∈ gs, g'.game_id ≠ g.game_id) →
      (sweepGames env now store gs).1.get? i = some g := by
  intro gs
  induction gs with
  | nil => intro store i g h _; simpa [sweepGames] using h
  | cons a gs ih =>
    intro store i g h hall
    rw [sweepGames]
    cases hstep : close_game_step env now a with
    | error e => exact h
    | ok res =>
      have h' : (applyStep store a.game_id now res.update).get? i = some g := by
        cases hres : res.update with
        | none => exact h
        | some u =>
          exact update_game_get?_of_ne store a.game_id u now i g h
            fun hEq => hall a (List.mem_cons_self _ _) hEq.symm
      exact ih _ i g h' fun g' hg' => hall g' (List.mem_cons_of_mem _ hg')

/-- C4: in a store with unique game identifiers, the close sweep leaves
every `closed` record exactly as it was (the sweep only selects `open`
games), and `create_game` — the only other store-writing operation — leaves
every existing record unchanged; hence a closed game is never reopened and
its winner fields are never rewritten. -/
theorem C4_closed_games_unchanged (env : CloseEnv) (now : Nat)
    (store : List GameRecord) (hids : (store.map GameRecord.game_id).Nodup)
    (i : Nat) (hi : i < store.length)
    (hclosed : (store.get ⟨i, hi⟩).status = "closed") :
    (run_close_game_agent_task env now store).1.get? i =
      some (store.get ⟨i, hi⟩) ∧
    ∀ gid tid gt ca,
      (create_game store gid tid gt ca now).get? i = some (store.get ⟨i, hi⟩) := by
  have hg : store.get? i = some (store.get ⟨i, hi⟩) := List.get?_eq_get hi
  constructor
  · apply sweepGames_get?_preserved env now _ store i _ hg
    intro g' hg' hEq
    have hmem := List.mem_filter.mp hg'
    have hs : g'.status = "open" := by
      have := hmem.2
      simpa using this
    have hgg : g' = store.get ⟨i, hi⟩ :=
      List.inj_on_of_nodup_map hids hmem.1 (store.get_mem i hi) hEq
    rw [hgg, hclosed] at hs
    exact absurd hs (by decide)
  · intro gid tid gt ca
    unfold create_game
    rw [List.get?_eq_getElem?, List.getElem?_append_left hi, ← List.get?_eq_getElem?]
    exact hg

/-- Witness for C4: a two-record store with one closed and one open game;
the closed record survives the sweep and a creation untouched. -/
theorem C4_closed_games_unchanged_witness :
    ((([{ gameA with game_id := "g0", status := "closed" }, gameA] :
          List GameRecord).map GameRecord.game_id).Nodup ∧
      (([{ gameA with game_id := "g0", status := "closed" }, gameA] :
          List GameRecord).get ⟨0, by decide⟩).status = "closed") ∧
    ((run_close_game_agent_task envC3 10
        [{ gameA with game_id := "g0", status := "closed" }, gameA]).1.get? 0 =
      some (([{ gameA with game_id := "g0", status := "closed" }, gameA] :
          List GameRecord).get ⟨0, by decide⟩) ∧
    ∀ gid tid gt ca,
      (create_game [{ gameA with game_id := "g0", status := "closed" }, gameA]
          gid tid gt ca 10).get? 0 =
        some (([{ gameA with game_id := "g0", status := "closed" }, gameA] :
            List GameRecord).get ⟨0, by decide⟩)) :=
  ⟨⟨by decide, rfl⟩,
    C4_closed_games_unchanged envC3 10 _ (by decide) 0 (by decide) rfl⟩

/-! ## C1: an announcement-posting error at the final step -/

lemma close_game_step_eq_winnerBranch (env : CloseEnv) (now : Nat)
    (g : GameRecord) (hdue : closeDue g now = true)
    (hfe : fetchError (env.fetch g) = none)
    (hne : (env.fetch g).isEmpty = false)
    (hval : (validEntries env.choice (env.fetch g)).isEmpty = false) :
    close_game_step env now g =
      closeWinnerBranch env g (validEntries env.choice (env.fetch g)) := by
  simp [close_game_step, hdue, hfe, hne, hval]

/-- C1 (amended): an error returned by the announcement-posting call at the
final (winner-selection) step is logged and *does* block the `closed`
transition: no update is written, so the game record stays as it was and the
game is retried on the next sweep. -/
theorem C1_post_error_blocks_close (env : CloseEnv) (now : Nat)
    (g : GameRecord) (winner : WinnerResponse) (e : String)
    (hdue : closeDue g now = true)
    (hfe : fetchError (env.fetch g) = none)
    (hne : (env.fetch g).isEmpty = false)
    (hval : (validEntries env.choice (env.fetch g)).isEmpty = false)
    (hjudge : env.judge g (validEntries env.choice (env.fetch g)) = .ok winner)
    (hpost : (env.post g (closeAnnouncementOf winner)).error = some e) :
    close_game_step env now g =
      .ok { update := none, posted := [closeAnnouncementOf winner],
            logs := [postErrorLog g e] } := by
  rw [close_game_step_eq_winnerBranch env now g hdue hfe hne hval]
  simp [closeWinnerBranch, select_winner_llm, tryReturn, hjudge, hpost]

/-- A concrete environment reaching the final step with a failing
announcement post. -/
def envC1 : CloseEnv :=
  { fetch := fun _ => [replyA]
    judge := fun _ _ => .ok ⟨⟨addrA, "r1"⟩, "judge reasoning"⟩
    post := fun _ _ => { error := some "boom" }
    choice := pickMem addrA }

/-- Counterexample to C1 as stated: a game closed with a winner-selection
verdict whose announcement post errors is *not* updated to `closed` — the
sweep leaves the open record untouched (the winner announcement was the text
posted, so this is the final step). -/
theorem C1_counterexample :
    run_close_game_agent_task envC1 10 [gameA] = ([gameA], none) ∧
    close_game_step envC1 10 gameA =
      .ok { update := none, posted := [winnerAnnouncement addrA],
            logs := [postErrorLog gameA "boom"] } := by
  exact ⟨rfl, rfl⟩

/-- Witness for the amended C1 at the concrete environment `envC1`. -/
theorem C1_post_error_blocks_close_witness :
    close_game_step envC1 10 gameA =
      .ok { update := none
            posted := [closeAnnouncementOf ⟨⟨addrA, "r1"⟩, "judge reasoning"⟩]
            logs := [postErrorLog gameA "boom"] } :=
  C1_post_error_blocks_close envC1 10 gameA ⟨⟨addrA, "r1"⟩, "judge reasoning"⟩
    "boom" rfl rfl rfl rfl rfl rfl

/-! ## C7: an empty-wallet verdict -/

/-- C7 (amended): when the verdict's wallet is blank after stripping, the
no-winner announcement is posted, but the record is then closed through the
regular winner-update path: `winner_wallet` is the verdict's wallet,
`chain_of_thought` is the verdict's chain of thought, `winning_tweet_text`
is the matched entry's text (empty only when no entry matches the verdict's
`reply_id`), and the author fields come from the matched entry — the fields
are not all empty. -/
theorem C7_empty_wallet_uses_winner_update (env : CloseEnv) (now : Nat)
    (g : GameRecord) (winner : WinnerResponse)
    (hdue : closeDue g now = true)
    (hfe : fetchError (env.fetch g) = none)
    (hne : (env.fetch g).isEmpty = false)
    (hval : (validEntries env.choice (env.fetch g)).isEmpty = false)
    (hjudge : env.judge g (validEntries env.choice (env.fetch g)) = .ok winner)
    (hwallet : pyStrip winner.result.wallet = "")
    (hpost : (env.post g noImpressiveAnnouncement).error = none) :
    close_game_step env now g =
      .ok { update := some (.withWinner
              (env.post g noImpressiveAnnouncement).id
              winner.result.wallet winner.chain_of_thought
              (wGetStrD (matchedEntry (validEntries env.choice (env.fetch g)) winner) "text" "")
              (wGetAuthor (matchedEntry (validEntries env.choice (env.fetch g)) winner)).username
              (wGetAuthor (matchedEntry (validEntries env.choice (env.fetch g)) winner)).name
              (wGetAuthor (matchedEntry (validEntries env.choice (env.fetch g)) winner)).profile_image_url
              (wGetStrD (matchedEntry (validEntries env.choice (env.fetch g)) winner) "author_id" "")
              (wGetAuthor (matchedEntry (validEntries env.choice (env.fetch g)) winner)).verified)
            posted := [noImpressiveAnnouncement], logs := [] } := by
  have hann : closeAnnouncementOf winner = noImpressiveAnnouncement := by
    simp [closeAnnouncementOf, hwallet]
  rw [close_game_step_eq_winnerBranch env now g hdue hfe hne hval]
  simp [closeWinnerBranch, select_winner_llm, tryReturn, hjudge, hann, hpost,
    matchedEntry]

/-- A concrete environment whose verdict carries an empty wallet but a
non-empty chain of thought, and whose `reply_id` matches the one entry. -/
def envC7 : CloseEnv :=
  { fetch := fun _ => [replyA]
    judge := fun _ _ => .ok ⟨⟨"", "r1"⟩, "some reasoning"⟩
    post := fun _ _ => { id := some "p9" }
    choice := pickMem addrA }

/-- Counterexample to C7 as stated: with an empty-wallet verdict the
no-winner announcement is posted, but the record is closed with
`chain_of_thought = "some reasoning"` and the winning tweet text set to the
matched reply's text — not with all winner fields empty. -/
theorem C7_counterexample :
    close_game_step envC7 10 gameA =
      .ok { update := some (.withWinner (some "p9") "" "some reasoning"
              ("my wallet " ++ addrA) "" "" "" "" false)
            posted := [noImpressiveAnnouncement], logs := [] } ∧
    "some reasoning" ≠ "" ∧ ("my wallet " ++ addrA) ≠ "" :=
  ⟨rfl, by decide, by decide⟩

/-- Witness for the amended C7 at the concrete environment `envC7`. -/
theorem C7_empty_wallet_uses_winner_update_witness :
    close_game_step envC7 10 gameA =
      .ok { update := some (.withWinner
              (envC7.post gameA noImpressiveAnnouncement).id
              ("" : String) "some reasoning"
              (wGetStrD (matchedEntry (validEntries envC7.choice (envC7.fetch gameA)) ⟨⟨"", "r1"⟩, "some reasoning"⟩) "text" "")
              (wGetAuthor (matchedEntry (validEntries envC7.choice (envC7.fetch gameA)) ⟨⟨"", "r1"⟩, "some reasoning"⟩)).username
              (wGetAuthor (matchedEntry (validEntries envC7.choice (envC7.fetch gameA)) ⟨⟨"", "r1"⟩, "some reasoning"⟩)).name
              (wGetAuthor (matchedEntry (validEntries envC7.choice (envC7.fetch gameA)) ⟨⟨"", "r1"⟩, "some reasoning"⟩)).profile_image_url
              (wGetStrD (matchedEntry (validEntries envC7.choice (envC7.fetch gameA)) ⟨⟨"", "r1"⟩, "some reasoning"⟩) "author_id" "")
              (wGetAuthor (matchedEntry (validEntries envC7.choice (envC7.fetch gameA)) ⟨⟨"", "r1"⟩, "some reasoning"⟩)).verified)
            posted := [noImpressiveAnnouncement], logs := [] } :=
  C7_empty_wallet_uses_winner_update envC7 10 gameA ⟨⟨"", "r1"⟩, "some reasoning"⟩
    rfl rfl rfl rfl rfl rfl rfl

/-! ## C10: the persisted winner_author_id is always empty -/

lemma mem_validEntries_shape (choice : Finset String → String)
    (replies : List Reply) (e : EntryDict)
    (he : e ∈ validEntries choice replies) :
    ∃ w t rid a, e = mkEntry w t rid a := by
  unfold validEntries at he
  obtain ⟨r, _, hr⟩ := List.mem_filterMap.mp he
  by_cases hn : (extract_solana_addresses (r.text.getD "")).Nonempty
  · rw [if_pos hn] at hr
    injection hr with hr
    exact ⟨_, _, _, _, hr.symm⟩
  · rw [if_neg hn] at hr
    exact absurd hr (by simp)

lemma mkEntry_lookup_author_id (w t : String) (rid : Option String) (a : Author) :
    (mkEntry w t rid a).lookup "author_id" = none := rfl

lemma wGetStrD_matched_author_id (valid_entries : List EntryDict)
    (winner : WinnerResponse) (choice : Finset String → String)
    (replies : List Reply) (hve : valid_entries = validEntries choice replies) :
    wGetStrD (matchedEntry valid_entries winner) "author_id" "" = "" := by
  cases hfind : matchedEntry valid_entries winner with
  | none => rfl
  | some e =>
    have hmem : e ∈ valid_entries := List.mem_of_find?_eq_some hfind
    obtain ⟨w, t, rid, a, hEq⟩ :=
      mem_validEntries_shape choice replies e (hve ▸ hmem)
    rw [wGetStrD, hEq, mkEntry_lookup_author_id]

/-- C10: whenever the close sweep writes a winner update (the only update
carrying a `winner_author_id` key), the persisted `winner_author_id` is the
empty string: the validated entry dicts have only the keys `wallet`, `text`,
`reply_id` and `author`, and the closure update reads the absent `author_id`
key with an empty-string default. -/
theorem C10_winner_author_id_always_empty (env : CloseEnv) (now : Nat)
    (g : GameRecord) (r : CloseGameResult) (u : GameUpdate) (aid : String)
    (hstep : close_game_step env now g = .ok r) (hu : r.update = some u)
    (haid : updateAuthorId u = some aid) : aid = "" := by
  unfold close_game_step at hstep
  split at hstep
  · injection hstep with hstep
    rw [← hstep] at hu
    exact absurd hu (by simp)
  · split at hstep
    · injection hstep with hstep
      rw [← hstep] at hu
      exact absurd hu (by simp)
    · split at hstep
      · injection hstep with hstep
        rw [← hstep] at hu
        rw [closeNoWinnerBranch] at hu
        simp at hu
        rw [← hu] at haid
        exact absurd haid (by simp [updateAuthorId])
      · split at hstep
        · injection hstep with hstep
          rw [← hstep] at hu
          rw [closeNoWinnerBranch] at hu
          simp at hu
          rw [← hu] at haid
          exact absurd haid (by simp [updateAuthorId])
        · unfold closeWinnerBranch at hstep
          split at hstep
          · exact absurd hstep (by simp)
          · exact absurd hstep (by simp)
          · split at hstep
            · injection hstep with hstep
              rw [← hstep] at hu
              exact absurd hu (by simp)
            · injection hstep with hstep
              rw [← hstep] at hu
              simp at hu
              rw [← hu] at haid
              rw [updateAuthorId] at haid
              injection haid with haid
              rw [← haid]
              exact wGetStrD_matched_author_id _ _ env.choice (env.fetch g) rfl

/-- A concrete environment closing a game with a non-empty winner wallet. -/
def envC10 : CloseEnv :=
  { fetch := fun _ => [replyA]
    judge := fun _ _ => .ok ⟨⟨addrA, "r1"⟩, "picked it"⟩
    post := fun _ _ => { id := some "p2" }
    choice := pickMem addrA }

/-- Witness for C10: a concrete winner closure whose update carries
`winner_author_id` equal to the empty string. -/
theorem C10_winner_author_id_always_empty_witness :
    (close_game_step envC10 10 gameA =
      .ok { update := some (.withWinner (some "p2") addrA "picked it"
              ("my wallet " ++ addrA) "" "" "" "" false)
            posted := [winnerAnnouncement addrA], logs := [] }) ∧
    ("" : String) = "" :=
  ⟨rfl, C10_winner_author_id_always_empty envC10 10 gameA _ _ _ rfl rfl rfl⟩

/-! ## C2: the Winner Selector's parse-failure fallback is dead code -/

/-- C2: contrary to the claim, a Judge parse failure is *not* resolved to
the first entry — `select_winner_llm` propagates it to its caller.  The
`ainvoke` call raises before the `try` block begins, and the `try` guards
only the plain `return`, which cannot raise, so the fallback branch never
runs: for every entry list and every parse-failure message, the failure
escapes (shown in general and at the concrete failing input). -/
theorem C2_parse_failure_propagates :
    select_winner_llm (.error "OutputParserException")
        [mkEntry "w" "creative answer" (some "r1") {}] =
      .error "OutputParserException" ∧
    ∀ (e : String) (entries : List EntryDict),
      select_winner_llm (.error e) entries = .error e :=
  ⟨rfl, fun _ _ => rfl⟩

/-! ## C6: the wallet chosen from a multi-address reply -/

/-- A reply text containing the two valid addresses `addrA` (first) and
`addrB` (second). -/
def textC6 : String := "wallets " ++ addrA ++ " " ++ addrB

/-- A reply whose text contains two valid addresses. -/
def replyC6 : Reply := { text := some textC6, id := some "r2" }

/-- C6: the entry-contribution test is as claimed, but the chosen wallet is
`next(iter(set))` on an *unordered* Python set, so the "first valid address
in the reply text" is not guaranteed: there is an admissible set-iteration
order (a choice function returning an element of every non-empty set) under
which the reply's entry carries the second address of the text rather than
the first. -/
theorem C6_set_iteration_not_first :
    ChoiceAdmissible (pickMem addrB) ∧
    firstValidAddress textC6 = some addrA ∧
    (validEntries (pickMem addrB) [replyC6]).map entryWallet = [addrB] ∧
    addrB ≠ addrA :=
  ⟨pickMem_admissible addrB, rfl, rfl, by decide⟩

/-! ## C5: openGame is all-or-nothing for the store -/

/-- C5: if the announcement post errors or returns no (or a falsy) post id,
`run_create_game_agent_task` persists nothing; on success with a post id it
persists exactly one new record, `open`, carrying the freshly generated
`game_id` and empty winner fields. -/
theorem C5_openGame_all_or_nothing (store : List GameRecord)
    (gt txt : String) (post : PostResult) (dur : Option Nat) (k : Fin 6)
    (now : Nat) (gid : String) :
    ((post.error.isSome = true ∨ post.id = none ∨ post.id = some "") →
      (run_create_game_agent_task store gt txt post dur k now gid).store = store) ∧
    (∀ tid, post.error = none → post.id = some tid → tid ≠ "" →
      ∃ rec, (run_create_game_agent_task store gt txt post dur k now gid).store
          = store ++ [rec] ∧
        rec.status = "open" ∧ rec.game_id = gid ∧ rec.tweet_id = tid ∧
        rec.winner_tweet_id = none ∧ rec.winner_wallet = none ∧
        rec.created_at = now) := by
  constructor
  · rintro (h | h | h)
    · simp [run_create_game_agent_task, h]
    · by_cases he : post.error.isSome
      · simp [run_create_game_agent_task, he]
      · simp [run_create_game_agent_task, he, h]
    · by_cases he : post.error.isSome
      · simp [run_create_game_agent_task, he]
      · simp [run_create_game_agent_task, he, h]
  · intro tid he hid htid
    have he' : post.error.isSome = false := by simp [he]
    cases dur with
    | some d =>
      exact ⟨newGameRecord gid tid gt (now + d) now,
        by simp [run_create_game_agent_task, he', hid, htid, create_game],
        rfl, rfl, rfl, rfl, rfl, rfl⟩
    | none =>
      exact ⟨newGameRecord gid tid gt
          (now + 60 * possible_durations.get ⟨k.val, by simp [possible_durations]⟩) now,
        by simp [run_create_game_agent_task, he', hid, htid, create_game],
        rfl, rfl, rfl, rfl, rfl, rfl⟩

/-- Witness for C5 at concrete inputs: a failing post persists nothing; a
successful post persists exactly one open record. -/
theorem C5_openGame_all_or_nothing_witness :
    (run_create_game_agent_task [] "fun_fact" "b" { error := some "x" } none
        ⟨0, by decide⟩ 100 "gid1").store = [] ∧
    ∃ rec, (run_create_game_agent_task [] "fun_fact" "b" { id := some "t9" }
        (some 90) ⟨0, by decide⟩ 100 "gid2").store = [] ++ [rec] ∧
      rec.status = "open" ∧ rec.game_id = "gid2" ∧ rec.tweet_id = "t9" ∧
      rec.winner_tweet_id = none ∧ rec.winner_wallet = none ∧
      rec.created_at = 100 :=
  ⟨(C5_openGame_all_or_nothing [] "fun_fact" "b" { error := some "x" } none
      ⟨0, by decide⟩ 100 "gid1").1 (Or.inl rfl),
    (C5_openGame_all_or_nothing [] "fun_fact" "b" { id := some "t9" }
      (some 90) ⟨0, by decide⟩ 100 "gid2").2 "t9" rfl rfl (by decide)⟩

/-! ## C8: the close_at computation and the rendered placeholder -/

/-- C8: on a successful post, an explicitly configured duration `d` (in
seconds) gives `close_at = created_at + d` and renders the placeholder as
"In \x7bd / 60\x7d minutes." (floor division, as in the source's `// 60`);
with no configured duration the offset is drawn from the fixed candidate
set `\x7b30,60,90,120,150,180\x7d` minutes and `close_at = created_at +
60·m` with the corresponding rendering. -/
theorem C8_close_at_computation (store : List GameRecord)
    (gt txt : String) (post : PostResult) (dur : Option Nat) (k : Fin 6)
    (now : Nat) (gid tid : String)
    (he : post.error = none) (hid : post.id = some tid) (htid : tid ≠ "") :
    (∀ d, dur = some d →
      ∃ rec, (run_create_game_agent_task store gt txt post dur k now gid).store
          = store ++ [rec] ∧
        rec.close_at = some (rec.created_at + d) ∧ rec.created_at = now ∧
        (run_create_game_agent_task store gt txt post dur k now gid).renderedText
          = some (formatResultTime txt ("In " ++ toString (d / 60) ++ " minutes."))) ∧
    (dur = none →
      ∃ m, m ∈ possible_durations ∧
        ∃ rec, (run_create_game_agent_task store gt txt post dur k now gid).store
            = store ++ [rec] ∧
          rec.close_at = some (rec.created_at + 60 * m) ∧ rec.created_at = now ∧
          (run_create_game_agent_task store gt txt post dur k now gid).renderedText
            = some (formatResultTime txt ("In " ++ toString m ++ " minutes."))) := by
  have he' : post.error.isSome = false := by simp [he]
  constructor
  · intro d hd
    subst hd
    exact ⟨newGameRecord gid tid gt (now + d) now,
      by simp [run_create_game_agent_task, he', hid, htid, create_game],
      rfl, rfl,
      by simp [run_create_game_agent_task, he', hid, htid]⟩
  · intro hd
    subst hd
    refine ⟨possible_durations.get ⟨k.val, by simp [possible_durations]⟩,
      List.get_mem _ _ _, ?_⟩
    exact ⟨newGameRecord gid tid gt
        (now + 60 * possible_durations.get ⟨k.val, by simp [possible_durations]⟩) now,
      by simp [run_create_game_agent_task, he', hid, htid, create_game],
      rfl, rfl,
      by simp [run_create_game_agent_task, he', hid, htid]⟩

/-- Witness for C8: explicit duration 90 seconds at creation time 100 gives
`close_at = 190` and the rendering "In 1 minutes." (floor of 90/60). -/
theorem C8_close_at_computation_witness :
    ∃ rec, (run_create_game_agent_task [] "fun_fact" "body \x7bresult_time\x7d"
        { id := some "t9" } (some 90) ⟨0, by decide⟩ 100 "gid3").store
        = [] ++ [rec] ∧
      rec.close_at = some (rec.created_at + 90) ∧ rec.created_at = 100 ∧
      (run_create_game_agent_task [] "fun_fact" "body \x7bresult_time\x7d"
          { id := some "t9" } (some 90) ⟨0, by decide⟩ 100 "gid3").renderedText
        = some (formatResultTime "body \x7bresult_time\x7d"
            ("In " ++ toString (90 / 60) ++ " minutes.")) :=
  (C8_close_at_computation [] "fun_fact" "body \x7bresult_time\x7d"
      { id := some "t9" } (some 90) ⟨0, by decide⟩ 100 "gid3" "t9"
      rfl rfl (by decide)).1 90 rfl

end Drawi
